import Mathlib

/-!
Formal model of `ai-pr-review` (src/index.ts), a script that fetches a pull
request diff, asks a language model for structured review comments, and posts
them back onto the pull request.

JavaScript dynamic values are modelled by the inductive type `Js`.  The JS
builtins the script relies on (property access, `for..of` iteration, string
coercion, `parseInt`, truthiness for `||`, optional chaining) are modelled by
executable functions.  External exchanges (the axios requests and the model
call) are supplied as data in `Env`: each response or failure is an input, and
the list of comment-POST payloads actually issued is part of the result, so
claims about call counts, ordering and failure handling become statements
about these functions.  Console output is not modelled; the only observable
effect of the catch block in `postReviewComments` that matters is whether the
logging expressions themselves throw.
-/

/-- Model of a JS number as far as this script needs it: an integer or NaN. -/
inductive JsNum where
  | nan
  | int (n : Int)

/-- Model of a JS value (the untyped JSON payloads the script manipulates). -/
inductive Js where
  | undefined
  | null
  | bool (b : Bool)
  | num (n : JsNum)
  | str (s : String)
  | arr (elems : List Js)
  | obj (fields : List (String × Js))

/-- Model of the `error.response` object attached to a rejected axios call:
HTTP status, status text, and the decoded body (`Js.undefined` when absent). -/
structure ErrResponse where
  status : Nat
  statusText : String
  data : Js

/-- Model of an error thrown by a rejected axios request; `response` is
`none` for transport-level failures with no HTTP response. -/
structure JsError where
  response : Option ErrResponse

/-- Exceptions a modelled JS evaluation can raise. -/
inductive Exn where
  | typeError
  | parseFailure
  | axiosFailure (e : JsError)

/-- JS truthiness, as used by `||` and `if`. -/
def Js.truthy : Js → Bool
  | .undefined => false
  | .null => false
  | .bool b => b
  | .num .nan => false
  | .num (.int n) => !(n == 0)
  | .str s => !(s == "")
  | .arr _ => true
  | .obj _ => true

/-- JS property access `v.key`.  Access on `null`/`undefined` throws a
TypeError; objects look the key up (missing keys give `undefined`); arrays
and strings expose `length`; other primitives give `undefined` (wrapper
prototype properties beyond `length` are not needed by any trace here). -/
def Js.getProp : Js → String → Except Exn Js
  | .undefined, _ => .error .typeError
  | .null, _ => .error .typeError
  | .obj fields, key => .ok ((fields.lookup key).getD .undefined)
  | .arr elems, key =>
      .ok (if key == "length" then .num (.int elems.length) else .undefined)
  | .str s, key =>
      .ok (if key == "length" then .num (.int s.length) else .undefined)
  | _, _ => .ok .undefined

/-- JS numeric indexing `v[i]`.  Indexing `null`/`undefined` throws a
TypeError; out-of-range and NaN indices give `undefined`. -/
def Js.index : Js → JsNum → Except Exn Js
  | .undefined, _ => .error .typeError
  | .null, _ => .error .typeError
  | .arr elems, .int i =>
      .ok (if 0 ≤ i then (elems.get? i.toNat).getD .undefined else .undefined)
  | .str s, .int i =>
      .ok (if 0 ≤ i then ((s.toList.get? i.toNat).map (fun c => Js.str c.toString)).getD .undefined else .undefined)
  | _, _ => .ok .undefined

/-- JS `for..of` iteration: arrays iterate their elements, strings their
characters; every other value is non-iterable and throws a TypeError. -/
def jsIterate : Js → Except Exn (List Js)
  | .arr elems => .ok elems
  | .str s => .ok (s.toList.map (fun c => Js.str c.toString))
  | _ => .error .typeError

/-- Decimal rendering of a modelled JS number, as `String(n)` would. -/
def jsNumToString : JsNum → String
  | .nan => "NaN"
  | .int n => toString n

/-- Element coercion used by the array join in string coercion:
`null`/`undefined`
become the empty string there (unlike at top level).  Nested arrays are
modelled coarsely as the empty string; no trace below stringifies them. -/
def jsAtomToString : Js → String
  | .undefined => ""
  | .null => ""
  | .bool b => if b then "true" else "false"
  | .num n => jsNumToString n
  | .str s => s
  | .arr _ => ""
  | .obj _ => "[object Object]"

/-- JS string coercion `String(v)` as used in template literals. -/
def jsToString : Js → String
  | .undefined => "undefined"
  | .null => "null"
  | .bool b => if b then "true" else "false"
  | .num n => jsNumToString n
  | .str s => s
  | .arr elems => String.intercalate "," (elems.map jsAtomToString)
  | .obj _ => "[object Object]"

/-- Whitespace skipped by `parseInt`. -/
def isJsWhitespace (c : Char) : Bool :=
  c == ' ' || c == '\t' || c == '\n' || c == '\r' || c == '\x0b' || c == '\x0c'

/-- Hexadecimal digit test for `parseInt` with an `0x` prefix. -/
def isHexDigitChar (c : Char) : Bool :=
  c.isDigit || (decide ('a' ≤ c) && decide (c ≤ 'f')) || (decide ('A' ≤ c) && decide (c ≤ 'F'))

/-- Value of a hexadecimal digit. -/
def hexVal (c : Char) : Nat :=
  if c.isDigit then c.toNat - 48
  else if decide ('a' ≤ c) && decide (c ≤ 'f') then c.toNat - 87
  else c.toNat - 55

/-- Longest leading run of decimal digits, or NaN when there is none
(JS `parseInt` semantics after sign handling). -/
def parseDigitsDec (sign : Int) (cs : List Char) : JsNum :=
  let ds := cs.takeWhile Char.isDigit
  if ds.isEmpty then .nan
  else .int (sign * Int.ofNat (ds.foldl (fun acc c => acc * 10 + (c.toNat - 48)) 0))

/-- Longest leading run of hexadecimal digits after an `0x` prefix, or NaN. -/
def parseDigitsHex (sign : Int) (cs : List Char) : JsNum :=
  let ds := cs.takeWhile isHexDigitChar
  if ds.isEmpty then .nan
  else .int (sign * Int.ofNat (ds.foldl (fun acc c => acc * 16 + hexVal c) 0))

/-- `parseInt` body after whitespace and sign: an `0x`/`0X` prefix selects
radix 16, otherwise radix 10. -/
def jsParseIntBody (sign : Int) (cs : List Char) : JsNum :=
  match cs with
  | '0' :: 'x' :: rest => parseDigitsHex sign rest
  | '0' :: 'X' :: rest => parseDigitsHex sign rest
  | _ => parseDigitsDec sign cs

/-- JS `parseInt(s)` (no radix argument): skip whitespace, optional sign,
then the longest valid digit prefix; NaN when no digit is found. -/
def jsParseIntStr (s : String) : JsNum :=
  match s.toList.dropWhile isJsWhitespace with
  | '-' :: rest => jsParseIntBody (-1) rest
  | '+' :: rest => jsParseIntBody 1 rest
  | cs => jsParseIntBody 1 cs

/-- JS `parseInt(v)` on an arbitrary value: the argument is first coerced
with `String(v)`. -/
def jsParseInt (v : Js) : JsNum := jsParseIntStr (jsToString v)

/-- JS `v.length - 1` for the commit indexing in `postReviewComments`:
number minus one, with `undefined - 1 = NaN`; `ToNumber` coercion of other
shapes is modelled coarsely as NaN (no trace below exercises them). -/
def jsSubOne : Js → JsNum
  | .num (.int n) => .int (n - 1)
  | .num .nan => .nan
  | .null => .int (-1)
  | .bool true => .int 0
  | .bool false => .int (-1)
  | _ => .nan

/-- Strict equality test `v === 0` as used on `comments.length`. -/
def jsStrictEqZero : Js → Bool
  | .num (.int n) => n == 0
  | _ => false

/-- Model of `const PR_NUMBER = parseInt(process.env.PR_NUMBER || "0")`,
line 7: `process.env` lookups give `undefined` when the variable is absent,
and `||` also replaces an empty string by the default. -/
def envOrDefault : Option String → String → String
  | none, dflt => dflt
  | some s, dflt => if s == "" then dflt else s

/-- String coercion of an environment variable inside a template literal:
an absent variable renders as the text `undefined`. -/
def optEnvString : Option String → String
  | none => "undefined"
  | some s => s

/-- Model of `PR_NUMBER` (src/index.ts line 7). -/
def PR_NUMBER (prNumberVar : Option String) : JsNum :=
  jsParseIntStr (envOrDefault prNumberVar "0")

/-- Model of `PR_API_URL` (src/index.ts line 8). -/
def PR_API_URL (repositoryVar : Option String) (prNumber : JsNum) : String :=
  s!"https://api.github.com/repos/{optEnvString repositoryVar}/pulls/{jsNumToString prNumber}"

/-- Loop body of `createIgnorePrReviewsPrompt` (src/index.ts lines 29-34):
reads `body`, `path`, `line`, falls back to `original_line` when `line` is
falsy, and renders one itemized entry. -/
def renderCommentEntry (comment : Js) : Except Exn String :=
  match comment.getProp "body" with
  | .error e => .error e
  | .ok body =>
    match comment.getProp "path" with
    | .error e => .error e
    | .ok path =>
      match comment.getProp "line" with
      | .error e => .error e
      | .ok l =>
        match (if l.truthy then Except.ok l else comment.getProp "original_line") with
        | .error e => .error e
        | .ok lineVal =>
          .ok s!"  - file \x22{jsToString path}\x22, line {jsToString lineVal}: {jsToString body}\n"

/-- Accumulation of the itemized entries, mirroring `ignorePrompt += ...`
inside the `for` loop of `createIgnorePrReviewsPrompt`. -/
def appendCommentEntries (acc : String) : List Js → Except Exn String
  | [] => .ok acc
  | c :: rest =>
    match renderCommentEntry c with
    | .error e => .error e
    | .ok entry => appendCommentEntries (acc ++ entry) rest

/-- Model of `createIgnorePrReviewsPrompt` (src/index.ts lines 19-36): the
value the returned promise resolves to, given the comments-listing response
body.  Returns the empty string when `comments.length === 0`, otherwise the
header plus one itemized entry per comment, in response order. -/
def createIgnorePrReviewsPrompt (comments : Js) : Except Exn String :=
  match comments.getProp "length" with
  | .error e => .error e
  | .ok len =>
    if jsStrictEqZero len then .ok ""
    else
      match jsIterate comments with
      | .error e => .error e
      | .ok items =>
        appendCommentEntries
          "- However, please ensure the content does not duplicate the following existing comments:\n"
          items

/-- String coercion of the un-awaited Promise object: `createPrompt` does
`prompt += createIgnorePrReviewsPrompt()` without `await` (src/index.ts
line 50), and JS coerces a Promise to this fixed text. -/
def unawaitedPromiseText : String := "[object Promise]"

/-- Model of `createPrompt` (src/index.ts lines 38-52).  The `language`
parameter defaults to "Japanese" at the call site in `main`.  Because the
call to `createIgnorePrReviewsPrompt` is not awaited, the resolved clause
never reaches the prompt; the coerced Promise text is appended instead. -/
def createPrompt (codeDiff : String) (language : String) : String :=
  let prompt :=
    "Review the following code:\n\n" ++ codeDiff ++ "\n\n" ++
    "- Be sure to comment on areas for improvement.\n" ++
    "- Please make review comments in " ++ language ++ ".\n" ++
    "- Please prefix your review comments with one of the following labels \x22MUST:\x22,\x22IMO:\x22,\x22NITS:\x22.\n" ++
    "  - MUST: must be modified\n" ++
    "  - IMO: personal opinion or minor proposal\n" ++
    "  - NITS: Proposals that do not require modification\n" ++
    "- The following json format should be followed.\n" ++
    "\x7b\x22files\x22:[\x7b\x22fileName\x22:\x22<file_name>\x22,\x22reviews\x22: [\x7b\x22lineNumber\x22:<line_number>,\x22reviewComment\x22:\x22<review comment>\x22\x7d]\x7d]\x7d\n" ++
    "- If there is no review comment, please answer \x7b\x22files\x22:[]\x7d\n"
  prompt ++ unawaitedPromiseText

/-- Model of `getAiReviewContent` (src/index.ts lines 54-70): the first
completion's `content` (`none` models JS `null`), with
`content || undefined` also turning an empty string into an absent result. -/
def getAiReviewContent (content : Option String) : Option String :=
  match content with
  | none => none
  | some s => if s == "" then none else some s

/-- One comment-creation payload, `commentData` (src/index.ts lines 85-90). -/
structure CommentData where
  body : Js
  commit_id : Js
  path : Js
  line : JsNum

/-- Construction of `commentData` for one review (src/index.ts lines 85-90),
in the evaluation order of the object literal: `review.reviewComment`,
`file.fileName`, `parseInt(review.lineNumber)`.  Property access can throw
when `review` is nullish. -/
def buildCommentData (lastCommit fileJs reviewJs : Js) : Except Exn CommentData :=
  match reviewJs.getProp "reviewComment" with
  | .error e => .error e
  | .ok body =>
    match fileJs.getProp "fileName" with
    | .error e => .error e
    | .ok path =>
      match reviewJs.getProp "lineNumber" with
      | .error e => .error e
      | .ok ln => .ok ⟨body, lastCommit, path, jsParseInt ln⟩

/-- The catch block of `postReviewComments` (src/index.ts lines 93-101).
The `console.error` template chains use `?.` throughout and cannot throw.
The hazard is `console.log(error.response?.data?.errors[0])` (and `[1]`):
the optional chain short-circuits only when `response` or `data` is nullish;
when `data` is present but its `errors` property is nullish, indexing it
throws a TypeError inside the catch block. -/
def catchBlock (err : JsError) : Except Exn Unit :=
  match err.response with
  | none => .ok ()
  | some r =>
    match r.data with
    | .undefined => .ok ()
    | .null => .ok ()
    | d =>
      match d.getProp "errors" with
      | .error e => .error e
      | .ok errs =>
        match errs.index (.int 0) with
        | .error e => .error e
        | .ok _ =>
          match errs.index (.int 1) with
          | .error e => .error e
          | .ok _ => .ok ()

/-- `prCommits[prCommits.length - 1].sha` (src/index.ts line 80): an empty
commit list makes `prCommits[-1]` give `undefined`, so the `.sha` access
throws a TypeError. -/
def lastCommitSha (prCommits : Js) : Except Exn Js :=
  match prCommits.getProp "length" with
  | .error e => .error e
  | .ok len =>
    match prCommits.index (jsSubOne len) with
    | .error e => .error e
    | .ok lastEntry => lastEntry.getProp "sha"

/-- Inner `for (const review of file.reviews)` loop (src/index.ts lines
83-103).  `po k` gives the outcome of the k-th POST in the run (`none` for
success); a rejected POST runs the catch block, and only a throw escaping
the catch aborts the iteration.  Returns the payloads actually POSTed (in
order), the next attempt index, and the loop's outcome. -/
def postFileReviews (lastCommit fileJs : Js) (po : Nat → Option JsError) :
    List Js → Nat → List CommentData × Nat × Except Exn Unit
  | [], k => ([], k, .ok ())
  | reviewJs :: rest, k =>
    match buildCommentData lastCommit fileJs reviewJs with
    | .error e => ([], k, .error e)
    | .ok cd =>
      match po k with
      | none =>
        match postFileReviews lastCommit fileJs po rest (k + 1) with
        | (attempts, k2, out) => (cd :: attempts, k2, out)
      | some err =>
        match catchBlock err with
        | .ok _ =>
          match postFileReviews lastCommit fileJs po rest (k + 1) with
          | (attempts, k2, out) => (cd :: attempts, k2, out)
        | .error e => ([cd], k + 1, .error e)

/-- Outer `for (const file of reviewFiles.files)` loop (src/index.ts lines
82-104). -/
def postFiles (lastCommit : Js) (po : Nat → Option JsError) :
    List Js → Nat → List CommentData × Nat × Except Exn Unit
  | [], k => ([], k, .ok ())
  | fileJs :: rest, k =>
    match fileJs.getProp "reviews" >>= jsIterate with
    | .error e => ([], k, .error e)
    | .ok reviews =>
      match postFileReviews lastCommit fileJs po reviews k with
      | (attempts, k2, .error e) => (attempts, k2, .error e)
      | (attempts, k2, .ok _) =>
        match postFiles lastCommit po rest k2 with
        | (attempts2, k3, out) => (attempts ++ attempts2, k3, out)

/-- Model of `postReviewComments` (src/index.ts lines 72-105).
`commitsData` is the commits GET: its response body, or the axios error it
rejected with.  Returns the POSTed payloads in issue order and the overall
outcome of the call. -/
def postReviewComments (commitsData : Except Exn Js) (po : Nat → Option JsError)
    (reviewFiles : Js) : List CommentData × Except Exn Unit :=
  match commitsData with
  | .error e => ([], .error e)
  | .ok prCommits =>
    match lastCommitSha prCommits with
    | .error e => ([], .error e)
    | .ok lastCommit =>
      match reviewFiles.getProp "files" >>= jsIterate with
      | .error e => ([], .error e)
      | .ok files =>
        match postFiles lastCommit po files 0 with
        | (attempts, _, out) => (attempts, out)

/-- The external exchanges of one run, supplied as data: the diff GET, the
model completion's `content`, the behaviour of the `JSON.parse` builtin on
the returned text, the commits GET, and the outcome of each comment POST. -/
structure Env where
  diffResult : Except Exn String
  aiContent : Option String
  jsonParse : String → Except Exn Js
  commitsData : Except Exn Js
  postOutcome : Nat → Option JsError

/-- Model of `main` (src/index.ts lines 107-116): fetch the diff, build the
prompt, obtain the model content, return early when it is absent, parse it,
and publish.  The result is the list of comment POSTs issued and whether the
run completed or rejected. -/
def mainRun (env : Env) : List CommentData × Except Exn Unit :=
  match env.diffResult with
  | .error e => ([], .error e)
  | .ok codeDiff =>
    let _prompt := createPrompt codeDiff "Japanese"
    match getAiReviewContent env.aiContent with
    | none => ([], .ok ())
    | some reviewJson =>
      match env.jsonParse reviewJson with
      | .error e => ([], .error e)
      | .ok reviewFiles => postReviewComments env.commitsData env.postOutcome reviewFiles

/-- A well-shaped review entry of the model output (spec section 3). -/
structure LineReview where
  lineNumber : Js
  reviewComment : Js

/-- A well-shaped per-file entry of the model output. -/
structure FileReview where
  fileName : Js
  reviews : List LineReview

/-- A well-shaped `ReviewSet` as the spec's data model describes it. -/
structure ReviewSet where
  files : List FileReview

/-- JSON encoding of one review entry. -/
def LineReview.toJs (r : LineReview) : Js :=
  .obj [("lineNumber", r.lineNumber), ("reviewComment", r.reviewComment)]

/-- JSON encoding of one file entry. -/
def FileReview.toJs (f : FileReview) : Js :=
  .obj [("fileName", f.fileName), ("reviews", .arr (f.reviews.map LineReview.toJs))]

/-- JSON encoding of a review set. -/
def ReviewSet.toJs (rs : ReviewSet) : Js :=
  .obj [("files", .arr (rs.files.map FileReview.toJs))]

/-- Total number of line reviews in a review set. -/
def ReviewSet.size (rs : ReviewSet) : Nat :=
  (rs.files.map (fun f => f.reviews.length)).sum

/-- The comment-POST payloads the publish loop should issue for a well-shaped
review set: file order, then review order within each file. -/
def expectedAttempts (lastCommit : Js) (rs : ReviewSet) : List CommentData :=
  (rs.files.map (fun f =>
    f.reviews.map (fun r =>
      CommentData.mk r.reviewComment lastCommit f.fileName (jsParseInt r.lineNumber)))).flatten

/-- One entry of the commits-list response body. -/
def shaObj (s : String) : Js := Js.obj [("sha", Js.str s)]

/-- Commits-list response body for a given sequence of commit SHAs. -/
def commitsJsOf (shas : List String) : Js := Js.arr (shas.map shaObj)

/-- Fixture: a commits GET that succeeded with a single commit. -/
def commitsOk1 : Except Exn Js := Except.ok (commitsJsOf ["c0ffee"])

/-- Fixture: a review set with one file and two reviews. -/
def twoSet : ReviewSet :=
  ⟨[⟨Js.str "a.ts", [⟨Js.num (JsNum.int 1), Js.str "r1"⟩, ⟨Js.num (JsNum.int 2), Js.str "r2"⟩]⟩]⟩

/-- Fixture: a 422 rejection as the hosting API sends it for an
unaddressable line — the body carries a structured `errors` array. -/
def err422 : JsError :=
  ⟨some ⟨422, "Unprocessable Entity",
    Js.obj [("message", Js.str "Validation Failed"),
            ("errors", Js.arr [Js.obj [("resource", Js.str "PullRequestReviewComment"),
                                       ("field", Js.str "line"),
                                       ("code", Js.str "invalid")]])]⟩⟩

/-- Fixture: a 403 rejection whose body has a `message` but no `errors`
array, as the hosting API sends for permission failures. -/
def errNoList : JsError :=
  ⟨some ⟨403, "Forbidden", Js.obj [("message", Js.str "Forbidden")]⟩⟩

/-- Fixture: the first POST of the run is rejected with `err422`. -/
def po422 : Nat → Option JsError := fun k => if k == 0 then some err422 else none

/-- Fixture: the first POST of the run is rejected with `errNoList`. -/
def poNoList : Nat → Option JsError := fun k => if k == 0 then some errNoList else none

/-- Fixture: a review set with three reviews across two files. -/
def threeSet : ReviewSet :=
  ⟨[⟨Js.str "a.ts", [⟨Js.num (JsNum.int 1), Js.str "r1"⟩, ⟨Js.num (JsNum.int 2), Js.str "r2"⟩]⟩,
    ⟨Js.str "b.ts", [⟨Js.num (JsNum.int 3), Js.str "r3"⟩]⟩]⟩

/-- Fixture: another errors-array-free rejection, for the batch-count claim. -/
def errNoListB : JsError :=
  ⟨some ⟨403, "Forbidden", Js.obj [("message", Js.str "Resource not accessible by integration")]⟩⟩

/-- Fixture: the first POST of the run is rejected with `errNoListB`. -/
def poNoListB : Nat → Option JsError := fun k => if k == 0 then some errNoListB else none

/-- Fixture: the spec's end-to-end example review set (one review on
`app.ts` line 42). -/
def c7Set : ReviewSet :=
  ⟨[⟨Js.str "app.ts", [⟨Js.num (JsNum.int 42), Js.str "MUST: remove unused variable"⟩]⟩]⟩

/-- Fixture: a one-comment comments-listing response body. -/
def c2Comments : Js :=
  Js.arr [Js.obj [("body", Js.str "x"), ("path", Js.str "a.ts"), ("line", Js.num (JsNum.int 3))]]

/-- Fixture: model output that is valid JSON but does not conform to the
required shape — the file entry has `reviews` but no `fileName`. -/
def badShapeJs : Js :=
  Js.obj [("files", Js.arr [Js.obj [("reviews",
    Js.arr [Js.obj [("lineNumber", Js.num (JsNum.int 1)), ("reviewComment", Js.str "x")]])]])]

/-- Fixture: the raw text whose `JSON.parse` result is `badShapeJs`. -/
def badShapeText : String :=
  "\x7b\x22files\x22:[\x7b\x22reviews\x22:[\x7b\x22lineNumber\x22:1,\x22reviewComment\x22:\x22x\x22\x7d]\x7d]\x7d"

/-- Fixture: a run whose model output is `badShapeText`. -/
def envC4 : Env :=
  ⟨Except.ok "d", some badShapeText,
   fun s => if s == badShapeText then Except.ok badShapeJs else Except.error Exn.parseFailure,
   Except.ok (commitsJsOf ["abc123"]), fun _ => none⟩

/-- Fixture: a run whose model output is not syntactically valid JSON. -/
def envW4 : Env :=
  ⟨Except.ok "d", some "not json", fun _ => Except.error Exn.parseFailure,
   Except.ok (commitsJsOf ["abc123"]), fun _ => none⟩

/-- Fixture: a run where the model returned no content. -/
def envW5 : Env :=
  ⟨Except.ok "", none, fun _ => Except.error Exn.parseFailure,
   Except.error Exn.typeError, fun _ => none⟩

/-- Fixture: a review set used to instantiate the batch-count theorem. -/
def wset : ReviewSet :=
  ⟨[⟨Js.str "w.ts", [⟨Js.num (JsNum.int 9), Js.str "MUST: w"⟩]⟩]⟩

theorem postFileReviews_ok (lastCommit : Js) (f : FileReview) (po : Nat → Option JsError)
    (hpo : ∀ k e, po k = some e → catchBlock e = Except.ok ()) :
    ∀ (reviews : List LineReview) (k : Nat),
      postFileReviews lastCommit (FileReview.toJs f) po (reviews.map LineReview.toJs) k =
        (reviews.map (fun r =>
           CommentData.mk r.reviewComment lastCommit f.fileName (jsParseInt r.lineNumber)),
         k + reviews.length, Except.ok ()) := by
  intro reviews
  induction reviews with
  | nil => intro k; simp [postFileReviews]
  | cons r rest ih =>
    intro k
    have hb : buildCommentData lastCommit (FileReview.toJs f) (LineReview.toJs r) =
        Except.ok (CommentData.mk r.reviewComment lastCommit f.fileName (jsParseInt r.lineNumber)) := rfl
    have hk : k + 1 + rest.length = k + (rest.length + 1) := by omega
    cases hpk : po k with
    | none =>
      simp only [List.map_cons, postFileReviews, hb, hpk, ih (k + 1), List.length_cons, hk]
    | some err =>
      have hc := hpo k err hpk
      simp only [List.map_cons, postFileReviews, hb, hpk, hc, ih (k + 1), List.length_cons, hk]

theorem postFiles_ok (lastCommit : Js) (po : Nat → Option JsError)
    (hpo : ∀ k e, po k = some e → catchBlock e = Except.ok ()) :
    ∀ (files : List FileReview) (k : Nat),
      postFiles lastCommit po (files.map FileReview.toJs) k =
        ((files.map (fun f =>
           f.reviews.map (fun r =>
             CommentData.mk r.reviewComment lastCommit f.fileName (jsParseInt r.lineNumber)))).flatten,
         k + (files.map (fun f => f.reviews.length)).sum, Except.ok ()) := by
  intro files
  induction files with
  | nil => intro k; simp [postFiles]
  | cons f rest ih =>
    intro k
    have hr : (FileReview.toJs f).getProp "reviews" >>= jsIterate =
        Except.ok (f.reviews.map LineReview.toJs) := rfl
    have hk : k + f.reviews.length + (rest.map (fun g => g.reviews.length)).sum =
        k + (f.reviews.length + (rest.map (fun g => g.reviews.length)).sum) := by omega
    simp only [List.map_cons, postFiles, hr,
      postFileReviews_ok lastCommit f po hpo f.reviews k, ih (k + f.reviews.length),
      List.flatten_cons, List.sum_cons, hk]

theorem expectedAttempts_length (sha : Js) (rs : ReviewSet) :
    (expectedAttempts sha rs).length = rs.size := by
  simp [expectedAttempts, ReviewSet.size, List.length_flatten, List.map_map,
    Function.comp_def, List.length_map]

theorem postReviewComments_ok (rs : ReviewSet) (commitsJs sha : Js) (po : Nat → Option JsError)
    (h1 : lastCommitSha commitsJs = Except.ok sha)
    (h2 : ∀ k e, po k = some e → catchBlock e = Except.ok ()) :
    postReviewComments (Except.ok commitsJs) po (ReviewSet.toJs rs) =
      (expectedAttempts sha rs, Except.ok ()) := by
  have hf : (ReviewSet.toJs rs).getProp "files" >>= jsIterate =
      Except.ok (rs.files.map FileReview.toJs) := rfl
  simp only [postReviewComments, h1, hf, postFiles_ok sha po h2 rs.files 0, expectedAttempts]

theorem index_concat (l : List Js) (a : Js) :
    (Js.arr (l ++ [a])).index (jsSubOne (Js.num (JsNum.int ((l ++ [a]).length : Int)))) =
      Except.ok a := by
  have hi : (((l ++ [a]).length : Int) - 1) = (l.length : Int) := by
    simp [List.length_append]
  simp only [jsSubOne, hi, Js.index]
  have h0 : (0 : Int) ≤ (l.length : Int) := Int.natCast_nonneg _
  rw [if_pos h0]
  simp [List.get?_eq_getElem?, List.getElem?_concat_length]

theorem lastCommitSha_append (l : List Js) (s : String) :
    lastCommitSha (Js.arr (l ++ [shaObj s])) = Except.ok (Js.str s) := by
  have hlen : (Js.arr (l ++ [shaObj s])).getProp "length" =
      Except.ok (Js.num (JsNum.int ((l ++ [shaObj s]).length : Int))) := by
    simp [Js.getProp]
  have hidx := index_concat l (shaObj s)
  simp only [lastCommitSha, hlen, hidx]
  rfl

theorem lastCommitSha_concat (init : List String) (lastS : String) :
    lastCommitSha (commitsJsOf (init ++ [lastS])) = Except.ok (Js.str lastS) := by
  have harr : commitsJsOf (init ++ [lastS]) = Js.arr (init.map shaObj ++ [shaObj lastS]) := by
    simp [commitsJsOf]
  rw [harr]
  exact lastCommitSha_append (init.map shaObj) lastS

theorem singleReview_attempts (fn ln body : Js) (init : List String) (lastS : String)
    (po : Nat → Option JsError) :
    (postReviewComments (Except.ok (commitsJsOf (init ++ [lastS]))) po
        (ReviewSet.toJs (ReviewSet.mk [FileReview.mk fn [LineReview.mk ln body]]))).1 =
      [CommentData.mk body (Js.str lastS) fn (jsParseInt ln)] := by
  have hf : (ReviewSet.toJs (ReviewSet.mk [FileReview.mk fn [LineReview.mk ln body]])).getProp
      "files" >>= jsIterate = Except.ok [FileReview.toJs (FileReview.mk fn [LineReview.mk ln body])] := rfl
  have hr : (FileReview.toJs (FileReview.mk fn [LineReview.mk ln body])).getProp
      "reviews" >>= jsIterate = Except.ok [LineReview.toJs (LineReview.mk ln body)] := rfl
  have hb : buildCommentData (Js.str lastS) (FileReview.toJs (FileReview.mk fn [LineReview.mk ln body]))
      (LineReview.toJs (LineReview.mk ln body)) =
      Except.ok (CommentData.mk body (Js.str lastS) fn (jsParseInt ln)) := rfl
  cases hpk : po 0 with
  | none =>
    simp [postReviewComments, lastCommitSha_concat, hf, postFiles, hr, postFileReviews, hb, hpk]
  | some err =>
    cases hcb : catchBlock err with
    | ok u =>
      simp [postReviewComments, lastCommitSha_concat, hf, postFiles, hr, postFileReviews, hb,
        hpk, hcb]
    | error e2 =>
      simp [postReviewComments, lastCommitSha_concat, hf, postFiles, hr, postFileReviews, hb,
        hpk, hcb]

/-- Claim C1 (code bug): the claim says a failed comment POST is caught and
logged and the run always completes.  For the claim's own example — a 422
whose body carries an `errors` array — this holds: both POSTs of `twoSet`
are attempted and the run completes.  But for a rejection whose body has no
`errors` array (`errNoList`, a plain 403), the logging expression
`error.response?.data?.errors[0]` itself throws a TypeError inside the catch
block, the second POST is never attempted, and the run rejects. -/
theorem claim_C1 :
    postReviewComments commitsOk1 po422 (ReviewSet.toJs twoSet) =
      ([⟨Js.str "r1", Js.str "c0ffee", Js.str "a.ts", JsNum.int 1⟩,
        ⟨Js.str "r2", Js.str "c0ffee", Js.str "a.ts", JsNum.int 2⟩], Except.ok ())
    ∧ postReviewComments commitsOk1 poNoList (ReviewSet.toJs twoSet) =
      ([⟨Js.str "r1", Js.str "c0ffee", Js.str "a.ts", JsNum.int 1⟩], Except.error Exn.typeError) :=
  ⟨rfl, rfl⟩

set_option maxRecDepth 10000 in
/-- Claim C2 (code bug): `createIgnorePrReviewsPrompt` would resolve to the
itemized de-duplication clause for a non-empty comment list, but
`createPrompt` appends the call without `await`, so the constructed prompt
is a fixed text ending in "[object Promise]" that never contains the clause,
whatever comments exist. -/
theorem claim_C2 :
    createIgnorePrReviewsPrompt c2Comments =
      Except.ok "- However, please ensure the content does not duplicate the following existing comments:\n  - file \x22a.ts\x22, line 3: x\n"
    ∧ createPrompt "d" "Japanese" =
      "Review the following code:\n\nd\n\n- Be sure to comment on areas for improvement.\n- Please make review comments in Japanese.\n- Please prefix your review comments with one of the following labels \x22MUST:\x22,\x22IMO:\x22,\x22NITS:\x22.\n  - MUST: must be modified\n  - IMO: personal opinion or minor proposal\n  - NITS: Proposals that do not require modification\n- The following json format should be followed.\n\x7b\x22files\x22:[\x7b\x22fileName\x22:\x22<file_name>\x22,\x22reviews\x22: [\x7b\x22lineNumber\x22:<line_number>,\x22reviewComment\x22:\x22<review comment>\x22\x7d]\x7d]\x7d\n- If there is no review comment, please answer \x7b\x22files\x22:[]\x7d\n[object Promise]" :=
  ⟨rfl, rfl⟩

/-- Claim C3 (code bug): publishing `threeSet` (three reviews) with the first
POST rejected by an errors-array-free 403 issues only one attempt — the
TypeError thrown while logging aborts the batch — contradicting "exactly N
attempts regardless of failures".  Whenever every rejection's body does let
the catch block complete (for example the 422s of the claim's scenario), the
loop does issue exactly N attempts, in file order then review order. -/
theorem claim_C3 :
    ((postReviewComments commitsOk1 poNoListB (ReviewSet.toJs threeSet)).1.length = 1
      ∧ threeSet.size = 3)
    ∧ ∀ (rs : ReviewSet) (commitsJs sha : Js) (po : Nat → Option JsError),
        lastCommitSha commitsJs = Except.ok sha →
        (∀ k e, po k = some e → catchBlock e = Except.ok ()) →
        postReviewComments (Except.ok commitsJs) po (ReviewSet.toJs rs) =
            (expectedAttempts sha rs, Except.ok ())
          ∧ (expectedAttempts sha rs).length = rs.size :=
  ⟨⟨rfl, rfl⟩, fun rs commitsJs sha po h1 h2 =>
    ⟨postReviewComments_ok rs commitsJs sha po h1 h2, expectedAttempts_length sha rs⟩⟩

/-- Claim C3 witness: the batch-count property instantiated at a concrete
one-review set with a resolvable commit list and no POST failures. -/
theorem claim_C3_witness :
    postReviewComments (Except.ok (commitsJsOf ["z"])) (fun _ => none) (ReviewSet.toJs wset) =
        (expectedAttempts (Js.str "z") wset, Except.ok ())
      ∧ (expectedAttempts (Js.str "z") wset).length = wset.size := by
  have h := claim_C3.2 wset (commitsJsOf ["z"]) (Js.str "z") (fun _ => none) rfl
    (by intro k e hke; simp at hke)
  exact h

/-- Claim C4 counterexample: model output that is valid JSON but lacks the
required shape (a file entry without `fileName`) is not rejected: the run
issues one comment POST whose `path` is `undefined` and completes without
any `MalformedReviewOutput`-style failure, contradicting "zero comment-post
calls are issued, and nothing is published". -/
theorem claim_C4_counterexample :
    mainRun envC4 = ([⟨Js.str "x", Js.str "abc123", Js.undefined, JsNum.int 1⟩], Except.ok ())
    ∧ (mainRun envC4).1.length = 1 :=
  ⟨rfl, rfl⟩

/-- Claim C4 (amended): when the model output is not syntactically valid
structured data, `JSON.parse` throws, the run rejects with that failure, and
zero comment POSTs are issued.  Shape conformance, however, is never
validated: parseable output of the wrong shape is interpreted as-is. -/
theorem claim_C4 :
    ∀ (env : Env) (d rj : String) (e : Exn),
      env.diffResult = Except.ok d →
      getAiReviewContent env.aiContent = some rj →
      env.jsonParse rj = Except.error e →
      mainRun env = ([], Except.error e) := by
  intro env d rj e h1 h2 h3
  simp [mainRun, h1, h2, h3]

/-- Claim C4 witness: a run with syntactically invalid model output rejects
with the parse failure and issues no comment POSTs. -/
theorem claim_C4_witness : mainRun envW4 = ([], Except.error Exn.parseFailure) :=
  claim_C4 envW4 "d" "not json" Exn.parseFailure rfl rfl rfl

/-- Claim C5: when the model service returns no content (the completion's
`content` is null, which `getAiReviewContent` turns into an absent result),
`main` returns early: the run completes successfully with zero comment
POSTs issued. -/
theorem claim_C5 :
    ∀ (env : Env) (d : String),
      env.diffResult = Except.ok d →
      getAiReviewContent env.aiContent = none →
      mainRun env = ([], Except.ok ()) := by
  intro env d h1 h2
  simp [mainRun, h1, h2]

/-- Claim C5 witness: a concrete run with absent model content is a no-op
success. -/
theorem claim_C5_witness : mainRun envW5 = ([], Except.ok ()) :=
  claim_C5 envW5 "" rfl rfl

/-- Claim C6: `postReviewComments` resolves the latest commit before any
POST.  When the commits GET fails, that failure propagates with zero POSTs;
when the commit list is empty, `prCommits[-1].sha` throws before any POST,
so the run also fails with zero POSTs. -/
theorem claim_C6 :
    ∀ (e : Exn) (po : Nat → Option JsError) (reviewFiles : Js),
      postReviewComments (Except.error e) po reviewFiles = ([], Except.error e)
      ∧ postReviewComments (Except.ok (Js.arr [])) po reviewFiles =
          ([], Except.error Exn.typeError) :=
  fun _ _ _ => ⟨rfl, rfl⟩

/-- Claim C7: for the spec's end-to-end example — one review on `app.ts`
line 42 — publishing issues exactly one POST whose payload has that body,
path `app.ts`, line 42, and the last commit list entry as `commit_id`,
whatever each POST's outcome is. -/
theorem claim_C7 :
    ∀ (init : List String) (lastS : String) (po : Nat → Option JsError),
      (postReviewComments (Except.ok (commitsJsOf (init ++ [lastS]))) po
          (ReviewSet.toJs c7Set)).1 =
        [⟨Js.str "MUST: remove unused variable", Js.str lastS, Js.str "app.ts", JsNum.int 42⟩] :=
  fun init lastS po =>
    singleReview_attempts (Js.str "app.ts") (Js.num (JsNum.int 42))
      (Js.str "MUST: remove unused variable") init lastS po

/-- Claim C8: in the entry `createIgnorePrReviewsPrompt` renders for an
existing comment, the line number is the comment's `line` attribute when it
is present (any nonzero integer), and the `original_line` attribute when
`line` is absent or null. -/
theorem claim_C8 :
    ∀ (b p ol : Js) (n : Int), n ≠ 0 →
      renderCommentEntry (Js.obj [("body", b), ("path", p), ("line", Js.num (JsNum.int n)),
          ("original_line", ol)]) =
        Except.ok s!"  - file \x22{jsToString p}\x22, line {jsToString (Js.num (JsNum.int n))}: {jsToString b}\n"
      ∧ renderCommentEntry (Js.obj [("body", b), ("path", p), ("line", Js.null),
          ("original_line", ol)]) =
        Except.ok s!"  - file \x22{jsToString p}\x22, line {jsToString ol}: {jsToString b}\n"
      ∧ renderCommentEntry (Js.obj [("body", b), ("path", p), ("original_line", ol)]) =
        Except.ok s!"  - file \x22{jsToString p}\x22, line {jsToString ol}: {jsToString b}\n" := by
  intro b p ol n hn
  refine ⟨?_, rfl, rfl⟩
  have ht : Js.truthy (Js.num (JsNum.int n)) = true := by
    simp [Js.truthy, hn]
  simp [renderCommentEntry, Js.getProp, List.lookup, ht]

/-- Claim C8 witness: the entry rendered for a concrete comment carrying
both attributes uses the `line` attribute. -/
theorem claim_C8_witness :
    renderCommentEntry (Js.obj [("body", Js.str "dup"), ("path", Js.str "app.ts"),
        ("line", Js.num (JsNum.int 5)), ("original_line", Js.num (JsNum.int 7))]) =
      Except.ok "  - file \x22app.ts\x22, line 5: dup\n" := by
  have h := claim_C8 (Js.str "dup") (Js.str "app.ts") (Js.num (JsNum.int 7)) 5 (by decide)
  exact h.1

/-- Claim C9: with the pull-request number variable absent, `PR_NUMBER`
evaluates to the sentinel 0 without failing, and the API URL embeds
`/pulls/0` — the misconfiguration can only surface later, when the hosting
API rejects requests against that URL. -/
theorem claim_C9 :
    PR_NUMBER none = JsNum.int 0
    ∧ PR_API_URL (some "him0/ai-pr-review") (PR_NUMBER none) =
        "https://api.github.com/repos/him0/ai-pr-review/pulls/0" :=
  ⟨rfl, rfl⟩

/-- Claim C10: for a published review, the payload's `line` field is
`parseInt` applied to the model-supplied `lineNumber`, whatever value that
is; and `parseInt` of a string that does not begin with digits is NaN, so
such a review is still POSTed with a NaN line rather than rejected first. -/
theorem claim_C10 :
    (∀ (fn ln body : Js) (init : List String) (lastS : String) (po : Nat → Option JsError),
      (postReviewComments (Except.ok (commitsJsOf (init ++ [lastS]))) po
          (ReviewSet.toJs (ReviewSet.mk [FileReview.mk fn [LineReview.mk ln body]]))).1 =
        [CommentData.mk body (Js.str lastS) fn (jsParseInt ln)])
    ∧ jsParseInt (Js.str "abc") = JsNum.nan :=
  ⟨singleReview_attempts, rfl⟩
